import Mathlib

/-!
Shallow embedding of the mem-mcp-server Express application (source file
`src/unnamed/part_002`, server version 2.1.0, the file all claims cite).

Conventions of the embedding:
* JS strings are Lean `String`s; `s.substring(0, n)` is modelled as taking the
  first `n` characters of the character list (`jsSubstring`), and `s.length`
  as the character count.  (JS counts UTF-16 code units; the two agree on the
  ASCII/BMP inputs used throughout.)
* JS truthiness on optional strings (`undefined`/`''` falsy) is `strTruthy`;
  raw template interpolation of a possibly-absent field is `jsShow`
  (`undefined` prints as the string "undefined" in JS).
* The two global session objects (`httpTransports`, `sseTransports`) are
  modelled as functions from session id to the per-session data that the
  routing code consults: for the streaming store only `lastAccess` matters
  (the handler/transport objects are opaque to every claim), so
  `HttpStore := SessionId → Option Millis`; the SSE store only needs
  membership, so `SseStore := SessionId → Bool`.  Per-key semantics of a JS
  object (lookup / assignment / `delete`) is exactly this functional view.
* `Date.now()` values reached during one request are modelled as a single
  request time `now`; `randomUUID()` is modelled as a parameter `freshId`
  (its freshness, when a claim needs it, is an explicit hypothesis).
* Express responses are modelled by their observable pieces: the outcome
  (an explicit status, or delegation to the MCP SDK transport's
  `handleRequest`/`handlePostMessage`), the `Mcp-Session-Id` response header
  when the code sets it, and the resulting store.
-/

abbrev SessionId := String
abbrev Millis := Nat

/-- Models `httpTransports` entry content visible to the router: the `lastAccess`
timestamp (the `server`/`transport` objects are opaque). -/
abbrev HttpStore := SessionId → Option Millis

/-- Models `sseTransports` membership. -/
abbrev SseStore := SessionId → Bool

/-- JS truthiness of a possibly-absent string (absent and `""` are falsy). -/
def strTruthy : Option String → Bool
  | none => false
  | some s => !(s == "")

/-- Raw JS template interpolation of a possibly-absent string field. -/
def jsShow : Option String → String
  | none => "undefined"
  | some s => s

/-- Models `s.substring(0, n)` from JS (first `n` characters). -/
def jsSubstring (s : String) (n : Nat) : String := String.mk (s.data.take n)

/-- Models `httpTransports[sid] = ...` (insert or overwrite). -/
def storeInsert (store : HttpStore) (sid : SessionId) (la : Millis) : HttpStore :=
  fun id => if id = sid then some la else store id

/-- Models `delete httpTransports[sid]`. -/
def storeErase (store : HttpStore) (sid : SessionId) : HttpStore :=
  fun id => if id = sid then none else store id

/-- Models `const SESSION_TTL_MS = 30 * 60 * 1000` (line 20). -/
def SESSION_TTL_MS : Nat := 30 * 60 * 1000

/-- Models `const CLEANUP_INTERVAL_MS = 5 * 60 * 1000` (line 21). -/
def CLEANUP_INTERVAL_MS : Nat := 5 * 60 * 1000

/-- The `setInterval` sweep body (lines 24-32): delete every entry whose
`now - lastAccess` exceeds `SESSION_TTL_MS`.  (JS subtraction of an earlier
from a later clock value is nonnegative; a hypothetical negative difference
is not `> SESSION_TTL_MS` in JS and truncated subtraction agrees.) -/
def cleanupStaleHttpSessions (now : Millis) (store : HttpStore) : HttpStore :=
  fun id =>
    match store id with
    | some la => if now - la > SESSION_TTL_MS then none else some la
    | none => none

/-! ### Upstream API client (`callMemAPIv2`, lines 35-63)

The network `fetch` is the external collaborator; the embedding models the
response-processing code after `await fetch(...)`.  `parsed` stands for the
outcome of the external `JSON.parse(text)`: `some v` on success, `none` when
parsing throws. -/

/-- Minimal JSON value universe for upstream responses. -/
inductive JsValue where
  | obj (fields : List (String × JsValue))
  | arr (elems : List JsValue)
  | str (s : String)
  | num (n : Int)
  | bool (b : Bool)
  | null

/-- The observable parts of the `fetch` response consumed by `callMemAPIv2`. -/
structure FetchResponse where
  ok : Bool
  status : Nat
  statusText : String
  text : String
  parsed : Option JsValue

/-- Lines 50-62 of `callMemAPIv2`: non-2xx throws an error with status,
status text and body; an empty 2xx body yields `{}`; a non-empty 2xx body is
JSON-parsed, and a parse failure throws an error carrying
`text.substring(0, 200)`. -/
def callMemAPIv2Result (r : FetchResponse) : Except String JsValue :=
  if !r.ok then
    Except.error ("Mem.ai API v2 error: " ++ toString r.status ++ " "
      ++ r.statusText ++ " - " ++ r.text)
  else if r.text = "" then
    Except.ok (JsValue.obj [])
  else
    match r.parsed with
    | some v => Except.ok v
    | none =>
      Except.error ("Mem.ai API returned non-JSON response: " ++ jsSubstring r.text 200)

/-! ### Tool result rendering (lines 78-387) -/

/-- A note object as consumed by the rendering code.  An absent
`collection_ids` behaves exactly like `[]` under the `?.` accesses the code
performs, so it is modelled as a plain list. -/
structure Note where
  title : Option String
  id : String
  created_at : String
  updated_at : String
  collection_ids : List String
  snippet : Option String
  content : Option String

/-- Upstream shape consumed by the `mem_search` handler.  An absent `results`
field and an empty array take the same branch
(`!result.results || result.results.length === 0`), so `results` is a plain
list. -/
structure SearchResult where
  results : List Note
  total : Nat

/-- Upstream shape consumed by the `mem_list` handler. -/
structure MemListResult where
  results : List Note
  total : Nat
  next_page : Option String

/-- The `if (note.content)` section of a note block (lines 124-126 / 191-193):
content truncated to `truncLen` characters, with `"..."` appended exactly when
the original length strictly exceeds `truncLen`. -/
def contentPart (truncLen : Nat) (content : Option String) : String :=
  if strTruthy content then
    "Content:\n" ++ jsSubstring (content.getD "") truncLen
      ++ (if (content.getD "").length > truncLen then "..." else "") ++ "\n"
  else ""

/-- The part of a note block before the content section
(lines 115-123 / 182-190). -/
def noteBlockHead (note : Note) : String :=
  "---\n**" ++ (if strTruthy note.title then note.title.getD "" else "Untitled")
  ++ "** (ID: " ++ note.id ++ ")\nCreated: " ++ note.created_at
  ++ " | Updated: " ++ note.updated_at ++ "\n"
  ++ (if note.collection_ids.length = 0 then ""
      else "Collections: " ++ String.intercalate ", " note.collection_ids ++ "\n")
  ++ (if strTruthy note.snippet then "Snippet: " ++ note.snippet.getD "" ++ "\n" else "")

/-- One loop iteration of the `mem_search` / `mem_list` rendering loop
(lines 114-128 / 181-194): the two occurrences are identical up to the
truncation length (500 vs 300). -/
def renderNoteBlock (truncLen : Nat) (note : Note) : String :=
  noteBlockHead note ++ contentPart truncLen note.content ++ "\n"

/-- Models `mem_search` success rendering (lines 106-132). -/
def memSearchRender (query : String) (result : SearchResult) : String :=
  if result.results.length = 0 then
    "No notes found matching \"" ++ query ++ "\""
  else
    List.foldl (fun acc note => acc ++ renderNoteBlock 500 note)
      ("Found " ++ toString result.total ++ " notes matching \"" ++ query ++ "\":\n\n")
      result.results

/-- The trailing pagination hint of `mem_list` (lines 197-199). -/
def pageHint (next_page : Option String) : String :=
  if strTruthy next_page then
    "\n(More notes available - use page cursor: \"" ++ next_page.getD "" ++ "\")"
  else ""

/-- Models `mem_list` success rendering (lines 173-203). -/
def memListRender (result : MemListResult) : String :=
  if result.results.length = 0 then
    "No notes found"
  else
    (List.foldl (fun acc note => acc ++ renderNoteBlock 300 note)
      ("Found " ++ toString result.total ++ " notes:\n\n")
      result.results)
    ++ pageHint result.next_page

/-- Models `result.collection_ids?.join(', ') || 'none'`. -/
def joinOrNone (ids : List String) : String :=
  if String.intercalate ", " ids = "" then "none" else String.intercalate ", " ids

/-- The part of the `mem_read` rendering before the content
(line 262 up to the final `---` separator). -/
def memReadHead (result : Note) : String :=
  "**" ++ (if strTruthy result.title then result.title.getD "" else "Untitled")
  ++ "**\n\nID: " ++ result.id
  ++ "\nCreated: " ++ result.created_at
  ++ "\nUpdated: " ++ result.updated_at
  ++ "\nCollections: " ++ joinOrNone result.collection_ids
  ++ "\n\n---\n\n"

/-- Models `mem_read` success rendering (lines 259-263): note that
`${result.content}` appears raw, with no truncation. -/
def memReadRender (result : Note) : String :=
  memReadHead result ++ jsShow result.content

/-- Models `mem_create` success rendering (line 237). -/
def memCreateRender (result : Note) : String :=
  "Note created successfully!\n\nID: " ++ result.id
  ++ "\nTitle: " ++ jsShow result.title
  ++ "\nCreated at: " ++ result.created_at
  ++ "\nUpdated at: " ++ result.updated_at
  ++ "\nCollections: " ++ joinOrNone result.collection_ids

/-- Models `mem_it` success rendering (line 298). -/
def memItRender (requestId : String) : String :=
  "Content sent to Mem for processing!\n\nRequest ID: " ++ requestId
  ++ "\n\nNote: Mem processes content asynchronously in the background."

/-- A collection object as consumed by the rendering code. -/
structure Collection where
  title : String
  id : String
  description : Option String

/-- Upstream shape consumed by the collection tools. -/
structure CollectionsResult where
  results : List Collection
  total : Nat

/-- One line of the collection list/search rendering (lines 332-337). -/
def renderCollectionLine (c : Collection) : String :=
  "- **" ++ c.title ++ "** (ID: " ++ c.id ++ ")\n"
  ++ (if strTruthy c.description then "  Description: " ++ c.description.getD "" ++ "\n" else "")

/-- Models `mem_collections_list` success rendering (lines 322-341). -/
def memCollectionsListRender (result : CollectionsResult) : String :=
  if result.results.length = 0 then
    "No collections found"
  else
    List.foldl (fun acc c => acc ++ renderCollectionLine c)
      ("Found " ++ toString result.total ++ " collections:\n\n")
      result.results

/-- Models `mem_collections_search` success rendering (lines 360-379). -/
def memCollectionsSearchRender (query : String) (result : CollectionsResult) : String :=
  if result.results.length = 0 then
    "No collections found matching \"" ++ query ++ "\""
  else
    List.foldl (fun acc c => acc ++ renderCollectionLine c)
      ("Found " ++ toString result.total ++ " collections matching \"" ++ query ++ "\":\n\n")
      result.results

/-! ### Tool handlers (try/catch structure)

Each handler body is `try { ...render(await callMemAPIv2(...)) } catch (error)
{ structured failure }`.  The embedding takes the outcome of the awaited
upstream call (`Except String α`, the error being `error.message`) and
produces the handler's returned tool result; a successful return in JS has no
`isError` field, which reads back as falsy, modelled as `false`. -/

/-- The `{ content: [...], isError? }` value a tool handler returns, reduced
to its observable text and failure flag. -/
structure ToolResult where
  text : String
  isError : Bool
deriving DecidableEq

/-- Models `mem_search` handler (lines 89-139). -/
def memSearchTool (query : String) (upstream : Except String SearchResult) : ToolResult :=
  match upstream with
  | Except.ok result => ToolResult.mk (memSearchRender query result) false
  | Except.error msg => ToolResult.mk ("Error searching notes: " ++ msg) true

/-- Models `mem_list` handler (lines 158-210). -/
def memListTool (upstream : Except String MemListResult) : ToolResult :=
  match upstream with
  | Except.ok result => ToolResult.mk (memListRender result) false
  | Except.error msg => ToolResult.mk ("Error listing notes: " ++ msg) true

/-- Models `mem_create` handler (lines 226-245). -/
def memCreateTool (upstream : Except String Note) : ToolResult :=
  match upstream with
  | Except.ok result => ToolResult.mk (memCreateRender result) false
  | Except.error msg => ToolResult.mk ("Error creating note: " ++ msg) true

/-- Models `mem_read` handler (lines 256-271). -/
def memReadTool (upstream : Except String Note) : ToolResult :=
  match upstream with
  | Except.ok result => ToolResult.mk (memReadRender result) false
  | Except.error msg => ToolResult.mk ("Error reading note: " ++ msg) true

/-- Models `mem_it` handler (lines 289-306); the success value is `result.request_id`. -/
def memItTool (upstream : Except String String) : ToolResult :=
  match upstream with
  | Except.ok requestId => ToolResult.mk (memItRender requestId) false
  | Except.error msg => ToolResult.mk ("Error: " ++ msg) true

/-- Models `mem_collections_list` handler (lines 320-348). -/
def memCollectionsListTool (upstream : Except String CollectionsResult) : ToolResult :=
  match upstream with
  | Except.ok result => ToolResult.mk (memCollectionsListRender result) false
  | Except.error msg => ToolResult.mk ("Error listing collections: " ++ msg) true

/-- Models `mem_collections_search` handler (lines 358-386). -/
def memCollectionsSearchTool (query : String) (upstream : Except String CollectionsResult) : ToolResult :=
  match upstream with
  | Except.ok result => ToolResult.mk (memCollectionsSearchRender query result) false
  | Except.error msg => ToolResult.mk ("Error searching collections: " ++ msg) true

/-! ### The `/mcp` router (lines 417-485) and `/messages` (lines 515-537) -/

inductive HttpMethod where
  | post
  | get
  | delete
  | other
deriving DecidableEq

/-- Observable outcome of a route: an explicit HTTP status response, or
delegation to the SDK transport (`handleRequest` / `handlePostMessage`). -/
inductive McpOutcome where
  | delegated
  | status (code : Nat)
deriving DecidableEq

/-- The inputs of one `/mcp` request the router consults: the method, the
`mcp-session-id` header, and whether `req.body?.method === 'initialize'`. -/
structure McpRequest where
  method : HttpMethod
  sessionHeader : Option SessionId
  bodyIsInit : Bool

/-- Observable result of routing one `/mcp` request. -/
structure McpResponse where
  outcome : McpOutcome
  sessionHeaderOut : Option SessionId
  store : HttpStore

/-- Lines 438-454: look the (possibly freshly minted) id up, 404 when absent,
otherwise refresh `lastAccess`, set the response header and delegate. -/
def postLookup (now : Millis) (store : HttpStore) (sessionId : SessionId) : McpResponse :=
  match store sessionId with
  | none => McpResponse.mk (McpOutcome.status 404) none store
  | some _ =>
    McpResponse.mk McpOutcome.delegated (some sessionId) (storeInsert store sessionId now)

/-- The POST branch (lines 422-454): mint and store a fresh session when the
body is an initialize message or the header is falsy, then proceed to lookup. -/
def handleMcpPost (freshId : SessionId) (now : Millis) (hdr : Option SessionId)
    (isInit : Bool) (store : HttpStore) : McpResponse :=
  if isInit || !(strTruthy hdr) then
    postLookup now (storeInsert store freshId now) freshId
  else
    postLookup now store (hdr.getD "")

/-- The GET branch (lines 455-475). -/
def handleMcpGet (now : Millis) (hdr : Option SessionId) (store : HttpStore) : McpResponse :=
  if !(strTruthy hdr) then
    McpResponse.mk (McpOutcome.status 400) none store
  else
    match store (hdr.getD "") with
    | none => McpResponse.mk (McpOutcome.status 404) none store
    | some _ =>
      McpResponse.mk McpOutcome.delegated (some (hdr.getD ""))
        (storeInsert store (hdr.getD "") now)

/-- The DELETE branch (lines 476-481): delete when the id is truthy and known;
always answer 204. -/
def handleMcpDelete (hdr : Option SessionId) (store : HttpStore) : McpResponse :=
  if strTruthy hdr && (store (hdr.getD "")).isSome then
    McpResponse.mk (McpOutcome.status 204) none (storeErase store (hdr.getD ""))
  else
    McpResponse.mk (McpOutcome.status 204) none store

/-- Models `app.all("/mcp")` (lines 417-485). -/
def handleMcpRequest (freshId : SessionId) (now : Millis) (req : McpRequest)
    (store : HttpStore) : McpResponse :=
  match req.method with
  | HttpMethod.post => handleMcpPost freshId now req.sessionHeader req.bodyIsInit store
  | HttpMethod.get => handleMcpGet now req.sessionHeader store
  | HttpMethod.delete => handleMcpDelete req.sessionHeader store
  | HttpMethod.other => McpResponse.mk (McpOutcome.status 405) none store

/-- Models `app.post("/messages")` (lines 515-537): 400 on a falsy `sessionId` query
parameter, 404 when the id is unknown to `sseTransports`, otherwise delegate;
the store is never modified. -/
def handleMessagesPost (sessionIdParam : Option String) (store : SseStore) :
    McpOutcome × SseStore :=
  if !(strTruthy sessionIdParam) then
    (McpOutcome.status 400, store)
  else if store (sessionIdParam.getD "") = false then
    (McpOutcome.status 404, store)
  else
    (McpOutcome.delegated, store)

/-! ### Helper lemmas -/

theorem strTruthy_some_ne (s : String) (h : s ≠ "") : strTruthy (some s) = true := by
  simp [strTruthy, h]

theorem strAppendEmpty (a : String) : a ++ "" = a := by
  apply String.ext
  show a.data ++ [] = a.data
  exact List.append_nil _

theorem strAppendAssoc (a b c : String) : a ++ b ++ c = a ++ (b ++ c) := by
  apply String.ext
  show a.data ++ b.data ++ c.data = a.data ++ (b.data ++ c.data)
  exact List.append_assoc _ _ _

/-- Concatenation of the rendered blocks of a list, one block per item, in
list order. -/
def concatMapStr {α : Type} (f : α → String) : List α → String
  | [] => ""
  | a :: t => f a ++ concatMapStr f t

/-- The JS accumulation loop (`responseText += block(item)` over the items)
equals the header followed by the item blocks in order. -/
theorem foldlAppendEq {α : Type} (f : α → String) (l : List α) (init : String) :
    List.foldl (fun acc x => acc ++ f x) init l = init ++ concatMapStr f l := by
  induction l generalizing init with
  | nil => exact (strAppendEmpty init).symm
  | cons a t ih =>
    rw [List.foldl_cons, ih]
    simp only [concatMapStr]
    exact strAppendAssoc init (f a) (concatMapStr f t)

theorem jsSubstring_of_le (s : String) (n : Nat) (h : s.length ≤ n) : jsSubstring s n = s := by
  show String.mk (s.data.take n) = s
  rw [List.take_of_length_le h]

theorem jsSubstring_length_of_le (s : String) (n : Nat) (h : n ≤ s.length) :
    (jsSubstring s n).length = n := by
  show (s.data.take n).length = n
  rw [List.length_take]
  exact Nat.min_eq_left h

theorem contentPart_short (truncLen : Nat) (c : String) (hne : c ≠ "")
    (h : c.length ≤ truncLen) :
    contentPart truncLen (some c) = "Content:\n" ++ c ++ "\n" := by
  simp only [contentPart, strTruthy_some_ne c hne, Option.getD_some, if_true,
    jsSubstring_of_le c truncLen h, if_neg (Nat.not_lt.mpr h), strAppendEmpty]

theorem contentPart_long (truncLen : Nat) (c : String) (h : truncLen < c.length) :
    contentPart truncLen (some c)
      = "Content:\n" ++ jsSubstring c truncLen ++ "..." ++ "\n" := by
  have hne : c ≠ "" := by
    rintro rfl
    simp [String.length] at h
  simp only [contentPart, strTruthy_some_ne c hne, Option.getD_some, if_true, if_pos h]

/-! ### Concrete inputs used by witnesses -/

/-- A concrete streaming-transport store holding one session. -/
def wStore : HttpStore := fun id => if id = "s1" then some 1000 else none

/-- A concrete event-stream store holding one session. -/
def wSse : SseStore := fun id => id == "live"

/-! ### Claims about the `/mcp` router and the session stores -/

/-- Claim C1: for a session id absent from the streaming store, a
non-creating request (a POST whose body is not an initialize message, or a
GET) answers 404 and leaves the store untouched; no session is created.  The
hypothesis `sid ≠ ""` says a session id is actually carried: an empty header
value is falsy in JS and is treated by the code as no session id at all. -/
theorem claim_C1_unknown_session_not_found (store : HttpStore) (sid freshId : SessionId)
    (now : Millis) (b : Bool) (hne : sid ≠ "") (habs : store sid = none) :
    handleMcpRequest freshId now (McpRequest.mk HttpMethod.post (some sid) false) store
      = McpResponse.mk (McpOutcome.status 404) none store
    ∧ handleMcpRequest freshId now (McpRequest.mk HttpMethod.get (some sid) b) store
      = McpResponse.mk (McpOutcome.status 404) none store := by
  constructor
  · show handleMcpPost freshId now (some sid) false store = _
    simp [handleMcpPost, postLookup, strTruthy_some_ne sid hne, habs]
  · show handleMcpGet now (some sid) store = _
    simp [handleMcpGet, strTruthy_some_ne sid hne, habs]

/-- Witness for C1 at a concrete store and session id. -/
theorem claim_C1_witness :
    ("zz" : SessionId) ≠ ""
    ∧ wStore "zz" = none
    ∧ (handleMcpRequest "f1" 5 (McpRequest.mk HttpMethod.post (some "zz") false) wStore
        = McpResponse.mk (McpOutcome.status 404) none wStore
      ∧ handleMcpRequest "f1" 5 (McpRequest.mk HttpMethod.get (some "zz") false) wStore
        = McpResponse.mk (McpOutcome.status 404) none wStore) :=
  ⟨by decide, by decide,
    claim_C1_unknown_session_not_found wStore "zz" "f1" 5 false (by decide) (by decide)⟩

/-- Claim C2: at a reaper tick a stored session is removed exactly when
`now - lastAccess` exceeds the 30-minute threshold; a non-initialize POST and
a GET routed to a known session both reset its `lastAccess` to the request
time; consequently a session touched at time `t` survives a tick at time
`now` whenever `now - t` is within the threshold. -/
theorem claim_C2_idle_eviction_and_touch (store : HttpStore) (sid freshId : SessionId)
    (la now t : Millis) (b : Bool) (hne : sid ≠ "") (hla : store sid = some la) :
    cleanupStaleHttpSessions now store sid
      = (if now - la > SESSION_TTL_MS then none else some la)
    ∧ (handleMcpRequest freshId t (McpRequest.mk HttpMethod.post (some sid) false) store).store
        sid = some t
    ∧ (handleMcpRequest freshId t (McpRequest.mk HttpMethod.get (some sid) b) store).store
        sid = some t
    ∧ (now - t ≤ SESSION_TTL_MS →
        cleanupStaleHttpSessions now
          ((handleMcpRequest freshId t
              (McpRequest.mk HttpMethod.post (some sid) false) store).store)
          sid = some t) := by
  have hpost :
      (handleMcpRequest freshId t (McpRequest.mk HttpMethod.post (some sid) false) store).store
        = storeInsert store sid t := by
    show (handleMcpPost freshId t (some sid) false store).store = _
    simp [handleMcpPost, postLookup, strTruthy_some_ne sid hne, hla]
  refine ⟨?_, ?_, ?_, ?_⟩
  · simp [cleanupStaleHttpSessions, hla]
  · rw [hpost]; simp [storeInsert]
  · show (handleMcpGet t (some sid) store).store sid = some t
    simp [handleMcpGet, strTruthy_some_ne sid hne, hla, storeInsert]
  · intro h
    rw [hpost]
    simp [cleanupStaleHttpSessions, storeInsert, Nat.not_lt.mpr h]

/-- Witness for C2: a session last touched at 1000 is swept at a tick
1800001 ms later, and touching resets the timestamp. -/
theorem claim_C2_witness :
    wStore "s1" = some 1000
    ∧ (cleanupStaleHttpSessions 2000000 wStore "s1"
        = (if 2000000 - 1000 > SESSION_TTL_MS then none else some 1000)
      ∧ (handleMcpRequest "f1" 7000
          (McpRequest.mk HttpMethod.post (some "s1") false) wStore).store "s1" = some 7000
      ∧ (handleMcpRequest "f1" 7000
          (McpRequest.mk HttpMethod.get (some "s1") false) wStore).store "s1" = some 7000
      ∧ (2000000 - 7000 ≤ SESSION_TTL_MS →
          cleanupStaleHttpSessions 2000000
            ((handleMcpRequest "f1" 7000
                (McpRequest.mk HttpMethod.post (some "s1") false) wStore).store)
            "s1" = some 7000)) :=
  ⟨by decide,
    claim_C2_idle_eviction_and_touch wStore "s1" "f1" 1000 2000000 7000 false
      (by decide) (by decide)⟩

/-- Claim C3: DELETE for a stored id answers 204 and removes exactly that id;
a second DELETE for the now-unknown id is a no-op that also answers 204; and
a subsequent non-creating POST or GET with that id answers 404. -/
theorem claim_C3_delete_idempotent (store : HttpStore) (sid freshId : SessionId)
    (now la : Millis) (b : Bool) (hne : sid ≠ "") (hla : store sid = some la) :
    handleMcpRequest freshId now (McpRequest.mk HttpMethod.delete (some sid) b) store
      = McpResponse.mk (McpOutcome.status 204) none (storeErase store sid)
    ∧ storeErase store sid sid = none
    ∧ (∀ id, id ≠ sid → storeErase store sid id = store id)
    ∧ handleMcpRequest freshId now (McpRequest.mk HttpMethod.delete (some sid) b)
        (storeErase store sid)
      = McpResponse.mk (McpOutcome.status 204) none (storeErase store sid)
    ∧ handleMcpRequest freshId now (McpRequest.mk HttpMethod.post (some sid) false)
        (storeErase store sid)
      = McpResponse.mk (McpOutcome.status 404) none (storeErase store sid)
    ∧ handleMcpRequest freshId now (McpRequest.mk HttpMethod.get (some sid) b)
        (storeErase store sid)
      = McpResponse.mk (McpOutcome.status 404) none (storeErase store sid) := by
  have he : storeErase store sid sid = none := by simp [storeErase]
  refine ⟨?_, he, ?_, ?_, ?_, ?_⟩
  · show handleMcpDelete (some sid) store = _
    simp [handleMcpDelete, strTruthy_some_ne sid hne, hla]
  · intro id h
    simp [storeErase, h]
  · show handleMcpDelete (some sid) (storeErase store sid) = _
    simp [handleMcpDelete, strTruthy_some_ne sid hne, he]
  · show handleMcpPost freshId now (some sid) false (storeErase store sid) = _
    simp [handleMcpPost, postLookup, strTruthy_some_ne sid hne, he]
  · show handleMcpGet now (some sid) (storeErase store sid) = _
    simp [handleMcpGet, strTruthy_some_ne sid hne, he]

/-- Witness for C3 at a concrete store and session id. -/
theorem claim_C3_witness :
    wStore "s1" = some 1000
    ∧ (handleMcpRequest "f1" 5 (McpRequest.mk HttpMethod.delete (some "s1") false) wStore
        = McpResponse.mk (McpOutcome.status 204) none (storeErase wStore "s1")
      ∧ storeErase wStore "s1" "s1" = none
      ∧ (∀ id, id ≠ "s1" → storeErase wStore "s1" id = wStore id)
      ∧ handleMcpRequest "f1" 5 (McpRequest.mk HttpMethod.delete (some "s1") false)
          (storeErase wStore "s1")
        = McpResponse.mk (McpOutcome.status 204) none (storeErase wStore "s1")
      ∧ handleMcpRequest "f1" 5 (McpRequest.mk HttpMethod.post (some "s1") false)
          (storeErase wStore "s1")
        = McpResponse.mk (McpOutcome.status 404) none (storeErase wStore "s1")
      ∧ handleMcpRequest "f1" 5 (McpRequest.mk HttpMethod.get (some "s1") false)
          (storeErase wStore "s1")
        = McpResponse.mk (McpOutcome.status 404) none (storeErase wStore "s1")) :=
  ⟨by decide,
    claim_C3_delete_idempotent wStore "s1" "f1" 5 1000 false (by decide) (by decide)⟩

/-- Claim C8: on `/messages`, a missing (or empty, hence falsy) `sessionId`
query parameter answers 400 and a present-but-unknown id answers 404; the
event-stream store is returned untouched in both cases. -/
theorem claim_C8_messages_bad_request_and_not_found (store : SseStore) (sid : String)
    (hne : sid ≠ "") (habs : store sid = false) :
    handleMessagesPost none store = (McpOutcome.status 400, store)
    ∧ handleMessagesPost (some "") store = (McpOutcome.status 400, store)
    ∧ handleMessagesPost (some sid) store = (McpOutcome.status 404, store) := by
  refine ⟨?_, ?_, ?_⟩
  · simp [handleMessagesPost, strTruthy]
  · simp [handleMessagesPost, strTruthy]
  · simp [handleMessagesPost, strTruthy_some_ne sid hne, habs]

/-- Witness for C8 at a concrete event-stream store. -/
theorem claim_C8_witness :
    ("ghost" : String) ≠ ""
    ∧ wSse "ghost" = false
    ∧ (handleMessagesPost none wSse = (McpOutcome.status 400, wSse)
      ∧ handleMessagesPost (some "") wSse = (McpOutcome.status 400, wSse)
      ∧ handleMessagesPost (some "ghost") wSse = (McpOutcome.status 404, wSse)) :=
  ⟨by decide, by decide,
    claim_C8_messages_bad_request_and_not_found wSse "ghost" (by decide) (by decide)⟩

/-- Claim C9: a POST with no `mcp-session-id` header always creates and
stores a fresh session, initialize payload or not: the request is delegated
to the new transport (never 404), the response header carries the minted id,
and the store gains exactly the one new entry. -/
theorem claim_C9_post_without_header_creates (store : HttpStore) (freshId : SessionId)
    (now : Millis) (isInit : Bool) (hfresh : store freshId = none) :
    handleMcpRequest freshId now (McpRequest.mk HttpMethod.post none isInit) store
      = McpResponse.mk McpOutcome.delegated (some freshId) (storeInsert store freshId now)
    ∧ store freshId = none
    ∧ storeInsert store freshId now freshId = some now
    ∧ (∀ id, id ≠ freshId → storeInsert store freshId now id = store id) := by
  refine ⟨?_, hfresh, by simp [storeInsert], fun id h => by simp [storeInsert, h]⟩
  have hdouble :
      storeInsert (storeInsert store freshId now) freshId now
        = storeInsert store freshId now := by
    funext id
    by_cases h : id = freshId <;> simp [storeInsert, h]
  show handleMcpPost freshId now none isInit store = _
  simp only [handleMcpPost, strTruthy, Bool.not_false, Bool.or_true, if_true, postLookup]
  simp [storeInsert, hdouble]

/-- Witness for C9: a non-initialize POST with no header on a store not
containing the fresh id. -/
theorem claim_C9_witness :
    wStore "f1" = none
    ∧ (handleMcpRequest "f1" 5 (McpRequest.mk HttpMethod.post none false) wStore
        = McpResponse.mk McpOutcome.delegated (some "f1") (storeInsert wStore "f1" 5)
      ∧ wStore "f1" = none
      ∧ storeInsert wStore "f1" 5 "f1" = some 5
      ∧ (∀ id, id ≠ "f1" → storeInsert wStore "f1" 5 id = wStore id)) :=
  ⟨by decide, claim_C9_post_without_header_creates wStore "f1" 5 false (by decide)⟩

/-- Claim C10: an initialize POST carrying an id already stored mints a fresh
id and stores a new session under it; the old entry keeps its id and its
`lastAccess` untouched, so the store grows by exactly one. -/
theorem claim_C10_init_preserves_existing_entry (store : HttpStore)
    (oldId freshId : SessionId) (la now : Millis)
    (hold : store oldId = some la) (hfresh : store freshId = none) :
    handleMcpRequest freshId now (McpRequest.mk HttpMethod.post (some oldId) true) store
      = McpResponse.mk McpOutcome.delegated (some freshId) (storeInsert store freshId now)
    ∧ storeInsert store freshId now oldId = some la
    ∧ storeInsert store freshId now freshId = some now
    ∧ (∀ id, id ≠ freshId → storeInsert store freshId now id = store id) := by
  have hne : oldId ≠ freshId := by
    intro e
    rw [e, hfresh] at hold
    cases hold
  refine ⟨?_, by simp [storeInsert, hne, hold], by simp [storeInsert],
    fun id h => by simp [storeInsert, h]⟩
  have hdouble :
      storeInsert (storeInsert store freshId now) freshId now
        = storeInsert store freshId now := by
    funext id
    by_cases h : id = freshId <;> simp [storeInsert, h]
  show handleMcpPost freshId now (some oldId) true store = _
  simp only [handleMcpPost, Bool.true_or, if_true, postLookup]
  simp [storeInsert, hdouble]

/-- Witness for C10: initialize POST carrying the stored id "s1" while the
fresh id "f1" is absent. -/
theorem claim_C10_witness :
    wStore "s1" = some 1000
    ∧ wStore "f1" = none
    ∧ (handleMcpRequest "f1" 5 (McpRequest.mk HttpMethod.post (some "s1") true) wStore
        = McpResponse.mk McpOutcome.delegated (some "f1") (storeInsert wStore "f1" 5)
      ∧ storeInsert wStore "f1" 5 "s1" = some 1000
      ∧ storeInsert wStore "f1" 5 "f1" = some 5
      ∧ (∀ id, id ≠ "f1" → storeInsert wStore "f1" 5 id = wStore id)) :=
  ⟨by decide, by decide,
    claim_C10_init_preserves_existing_entry wStore "s1" "f1" 1000 5 (by decide) (by decide)⟩

/-! ### Claims about tool rendering and the upstream client -/

/-- Concrete note used by the C4 correction: no digit 1 occurs in any field. -/
def c4Note : Note := Note.mk (some "x") "x" "d" "d" [] none none

/-- A one-item search result whose upstream `total` field reads 5. -/
def c4SR : SearchResult := SearchResult.mk [c4Note] 5

/-- Counterexample to C4 as stated: a search result with exactly one item but
upstream `total = 5` renders a header announcing 5, and the digit 1 (the item
count N) appears nowhere in the rendered text, so the header does not contain
N; the rendering also differs from the text the claim prescribes. -/
theorem claim_C4_counterexample :
    c4SR.results.length = 1
    ∧ 0 < c4SR.results.length
    ∧ List.contains (memSearchRender "q" c4SR).data '1' = false
    ∧ memSearchRender "q" c4SR
        ≠ "Found " ++ toString c4SR.results.length ++ " notes matching \"q\":\n\n"
          ++ concatMapStr (renderNoteBlock 500) c4SR.results := by
  refine ⟨rfl, by decide, by decide, by decide⟩

/-- Claim C4 as amended: for a non-empty upstream list the tools render a
header containing the upstream-reported `total` (not the item count, though
the two coincide when the upstream sets `total` to the number of returned
items) followed by exactly one block per item in the order received; an empty
list renders the fixed no-results sentence and zero blocks, and the zero-hit
budget search renders exactly the prescribed text. -/
theorem claim_C4_render_amended (q : String) (sr : SearchResult) (lr : MemListResult) :
    (sr.results ≠ [] →
      memSearchRender q sr
        = "Found " ++ toString sr.total ++ " notes matching \"" ++ q ++ "\":\n\n"
          ++ concatMapStr (renderNoteBlock 500) sr.results)
    ∧ (sr.results = [] →
      memSearchRender q sr = "No notes found matching \"" ++ q ++ "\"")
    ∧ (lr.results ≠ [] →
      memListRender lr
        = ("Found " ++ toString lr.total ++ " notes:\n\n"
            ++ concatMapStr (renderNoteBlock 300) lr.results)
          ++ pageHint lr.next_page)
    ∧ (lr.results = [] → memListRender lr = "No notes found")
    ∧ memSearchRender "budget" (SearchResult.mk [] sr.total)
        = "No notes found matching \"budget\"" := by
  refine ⟨?_, ?_, ?_, ?_, rfl⟩
  · intro h
    rw [memSearchRender, if_neg (by simpa [List.length_eq_zero] using h), foldlAppendEq]
  · intro h
    rw [memSearchRender, if_pos (by simp [h])]
  · intro h
    rw [memListRender, if_neg (by simpa [List.length_eq_zero] using h), foldlAppendEq]
  · intro h
    rw [memListRender, if_pos (by simp [h])]

/-- Witness for C4 (amended): a one-item search with matching total, and an
empty list result. -/
theorem claim_C4_witness :
    memSearchRender "x" (SearchResult.mk [c4Note] 1)
      = "Found " ++ toString (SearchResult.mk [c4Note] 1).total
          ++ " notes matching \"" ++ "x" ++ "\":\n\n"
        ++ concatMapStr (renderNoteBlock 500) [c4Note]
    ∧ memListRender (MemListResult.mk [] 0 none) = "No notes found" :=
  ⟨(claim_C4_render_amended "x" (SearchResult.mk [c4Note] 1)
      (MemListResult.mk [] 0 none)).1 (List.cons_ne_nil _ _),
   (claim_C4_render_amended "x" (SearchResult.mk [c4Note] 1)
      (MemListResult.mk [] 0 none)).2.2.2.1 rfl⟩

/-- Content of 501 characters, one over the claimed mem_read boundary. -/
def c5Content : String := String.mk (List.replicate 501 'a')

/-- A note carrying the 501-character content. -/
def c5Note : Note := Note.mk (some "T") "i" "d" "u" [] none (some c5Content)

set_option maxRecDepth 10000 in
/-- Counterexample to C5 as stated: `mem_read` renders a 501-character
content field in full, with no truncation to 500 and no ellipsis marker, so
"content fields longer than 500 are truncated for single-item reads" is false
on the code. -/
theorem claim_C5_counterexample :
    500 < c5Content.length
    ∧ memReadRender c5Note = memReadHead c5Note ++ c5Content
    ∧ memReadRender c5Note ≠ memReadHead c5Note ++ jsSubstring c5Content 500 ++ "..." := by
  refine ⟨by decide, rfl, by decide⟩

/-- Claim C5 as amended: `mem_search` truncates content strictly over 500
characters to its first 500 and appends the ellipsis marker, `mem_list` does
the same at 300, content at or below the boundary is rendered unmodified with
no marker - but `mem_read` renders content unmodified at every length.  The
final conjuncts tie the 500/300 block to the two list-rendering tools. -/
theorem claim_C5_truncation_amended (note : Note) (c : String) (q : String) (t : Nat)
    (hc : note.content = some c) (hne : c ≠ "") :
    (c.length ≤ 500 →
      renderNoteBlock 500 note = noteBlockHead note ++ ("Content:\n" ++ c ++ "\n") ++ "\n")
    ∧ (500 < c.length →
      renderNoteBlock 500 note
          = noteBlockHead note ++ ("Content:\n" ++ jsSubstring c 500 ++ "..." ++ "\n") ++ "\n"
        ∧ (jsSubstring c 500).length = 500)
    ∧ (c.length ≤ 300 →
      renderNoteBlock 300 note = noteBlockHead note ++ ("Content:\n" ++ c ++ "\n") ++ "\n")
    ∧ (300 < c.length →
      renderNoteBlock 300 note
          = noteBlockHead note ++ ("Content:\n" ++ jsSubstring c 300 ++ "..." ++ "\n") ++ "\n"
        ∧ (jsSubstring c 300).length = 300)
    ∧ memReadRender note = memReadHead note ++ c
    ∧ memSearchRender q (SearchResult.mk [note] t)
        = ("Found " ++ toString t ++ " notes matching \"" ++ q ++ "\":\n\n")
          ++ renderNoteBlock 500 note
    ∧ memListRender (MemListResult.mk [note] t none)
        = ("Found " ++ toString t ++ " notes:\n\n") ++ renderNoteBlock 300 note := by
  refine ⟨?_, ?_, ?_, ?_, ?_, rfl, ?_⟩
  · intro h
    rw [renderNoteBlock, hc, contentPart_short 500 c hne h]
  · intro h
    exact ⟨by rw [renderNoteBlock, hc, contentPart_long 500 c h],
      jsSubstring_length_of_le c 500 (Nat.le_of_lt h)⟩
  · intro h
    rw [renderNoteBlock, hc, contentPart_short 300 c hne h]
  · intro h
    exact ⟨by rw [renderNoteBlock, hc, contentPart_long 300 c h],
      jsSubstring_length_of_le c 300 (Nat.le_of_lt h)⟩
  · rw [memReadRender, hc]
    rfl
  · show (("Found " ++ toString t ++ " notes:\n\n") ++ renderNoteBlock 300 note)
        ++ pageHint none = _
    exact strAppendEmpty _

set_option maxRecDepth 10000 in
/-- Witness for C5 (amended): the 501-character content is truncated with a
marker at 500 by the search block, and rendered in full by `mem_read`. -/
theorem claim_C5_witness :
    (renderNoteBlock 500 c5Note
        = noteBlockHead c5Note
          ++ ("Content:\n" ++ jsSubstring c5Content 500 ++ "..." ++ "\n") ++ "\n"
      ∧ (jsSubstring c5Content 500).length = 500)
    ∧ memReadRender c5Note = memReadHead c5Note ++ c5Content :=
  ⟨(claim_C5_truncation_amended c5Note c5Content "q" 1 rfl (by decide)).2.1 (by decide),
   (claim_C5_truncation_amended c5Note c5Content "q" 1 rfl (by decide)).2.2.2.2.1⟩

/-- A 201-character non-JSON body, one over the 200-character cap the code
applies when reporting a parse failure. -/
def c6Body : String := String.mk (List.replicate 201 'q')

/-- A 2xx response carrying `c6Body`, whose JSON parse fails. -/
def c6Resp : FetchResponse := FetchResponse.mk true 200 "OK" c6Body none

/-- The fixed message head of the parse-failure error. -/
def c6Head : String := "Mem.ai API returned non-JSON response: "

/-- The error message the code actually produces for `c6Resp`. -/
def c6Msg : String := c6Head ++ String.mk (List.replicate 200 'q')

/-- Counterexample to C6 as stated: on a 201-character non-JSON 2xx body the
format error does not carry the raw text - the message holds only the first
200 characters, and the raw body is not even an infix of it (it has 201
occurrences of the letter against the message total of 200). -/
theorem claim_C6_counterexample :
    callMemAPIv2Result c6Resp = Except.error c6Msg
    ∧ ¬ (c6Body.data <:+: c6Msg.data) := by
  constructor
  · rfl
  · intro h
    have hcount : c6Body.data.count 'q' ≤ c6Msg.data.count 'q' := h.count_le 'q'
    have h1 : c6Body.data.count 'q' = 201 := by
      show (List.replicate 201 'q').count 'q' = 201
      exact List.count_replicate_self 'q' 201
    have h2 : c6Msg.data.count 'q' = 200 := by
      show (c6Head.data ++ List.replicate 200 'q').count 'q' = 200
      rw [List.count_append, List.count_replicate_self]
      have h0 : c6Head.data.count 'q' = 0 := by decide
      rw [h0]
    rw [h1, h2] at hcount
    exact absurd hcount (by decide)

/-- Claim C6 as amended: the upstream client maps a 2xx empty body to the
empty object (not an error); a 2xx non-empty body that fails JSON parsing to
a format error carrying the first 200 characters of the raw text; a parsed
2xx body to its JSON value; and a non-2xx response to an error carrying the
status, status text and the full body text. -/
theorem claim_C6_upstream_amended (r : FetchResponse) :
    (r.ok = true → r.text = "" → callMemAPIv2Result r = Except.ok (JsValue.obj []))
    ∧ (r.ok = true → r.text ≠ "" → r.parsed = none →
        callMemAPIv2Result r
          = Except.error ("Mem.ai API returned non-JSON response: " ++ jsSubstring r.text 200))
    ∧ (∀ v, r.ok = true → r.text ≠ "" → r.parsed = some v →
        callMemAPIv2Result r = Except.ok v)
    ∧ (r.ok = false →
        callMemAPIv2Result r
          = Except.error ("Mem.ai API v2 error: " ++ toString r.status ++ " "
              ++ r.statusText ++ " - " ++ r.text)) := by
  refine ⟨?_, ?_, ?_, ?_⟩
  · intro hok htext
    simp [callMemAPIv2Result, hok, htext]
  · intro hok htext hparsed
    simp [callMemAPIv2Result, hok, htext, hparsed]
  · intro v hok htext hparsed
    simp [callMemAPIv2Result, hok, htext, hparsed]
  · intro hok
    simp [callMemAPIv2Result, hok]

/-- Witness for C6 (amended): an empty 2xx body yields the empty object and
a 404 yields the composed error message. -/
theorem claim_C6_witness :
    callMemAPIv2Result (FetchResponse.mk true 200 "OK" "" none) = Except.ok (JsValue.obj [])
    ∧ callMemAPIv2Result (FetchResponse.mk false 404 "Not Found" "gone" none)
        = Except.error ("Mem.ai API v2 error: " ++ toString (404 : Nat) ++ " "
            ++ "Not Found" ++ " - " ++ "gone") :=
  ⟨(claim_C6_upstream_amended (FetchResponse.mk true 200 "OK" "" none)).1 rfl rfl,
   (claim_C6_upstream_amended (FetchResponse.mk false 404 "Not Found" "gone" none)).2.2.2 rfl⟩

/-- Claim C7: every registered tool handler converts a failing upstream call
(the thrown `error`, surfaced as `Except.error` with its message) into a
structured tool result whose failure flag is set and whose text carries the
message behind the tool's fixed error label; the handlers are total functions
of the upstream outcome, so no exception ever escapes a handler, and a
successful upstream call never sets the failure flag. -/
theorem claim_C7_tool_errors_structured (msg q cq : String) :
    memSearchTool q (Except.error msg)
      = ToolResult.mk ("Error searching notes: " ++ msg) true
    ∧ memListTool (Except.error msg) = ToolResult.mk ("Error listing notes: " ++ msg) true
    ∧ memCreateTool (Except.error msg) = ToolResult.mk ("Error creating note: " ++ msg) true
    ∧ memReadTool (Except.error msg) = ToolResult.mk ("Error reading note: " ++ msg) true
    ∧ memItTool (Except.error msg) = ToolResult.mk ("Error: " ++ msg) true
    ∧ memCollectionsListTool (Except.error msg)
      = ToolResult.mk ("Error listing collections: " ++ msg) true
    ∧ memCollectionsSearchTool cq (Except.error msg)
      = ToolResult.mk ("Error searching collections: " ++ msg) true
    ∧ (∀ r : SearchResult, (memSearchTool q (Except.ok r)).isError = false)
    ∧ (∀ r : MemListResult, (memListTool (Except.ok r)).isError = false)
    ∧ (∀ r : Note, (memCreateTool (Except.ok r)).isError = false)
    ∧ (∀ r : Note, (memReadTool (Except.ok r)).isError = false)
    ∧ (∀ r : String, (memItTool (Except.ok r)).isError = false)
    ∧ (∀ r : CollectionsResult, (memCollectionsListTool (Except.ok r)).isError = false)
    ∧ (∀ r : CollectionsResult, (memCollectionsSearchTool cq (Except.ok r)).isError = false) :=
  ⟨rfl, rfl, rfl, rfl, rfl, rfl, rfl, fun _ => rfl, fun _ => rfl, fun _ => rfl,
   fun _ => rfl, fun _ => rfl, fun _ => rfl, fun _ => rfl⟩
